import Mathlib

/-!
Shallow embedding of `src/wgpu/texture/image.rs` from the nannou repository:
the interop layer between the `image` crate (CPU-side images) and wgpu
textures (GPU-side images).  The two enumerations come from the external
crates the file is written against: `image::ColorType` (image crate v0.23)
and `wgpu::TextureFormat` (wgpu v0.4).
-/

/-- The `image::ColorType` enumeration (image crate v0.23): the pixel layouts
an image in RAM may use. -/
inductive ColorType
  | L8
  | La8
  | Rgb8
  | Rgba8
  | Bgr8
  | Bgra8
  | L16
  | La16
  | Rgb16
  | Rgba16
  deriving DecidableEq, Repr, Fintype

/-- The `wgpu::TextureFormat` enumeration (wgpu v0.4): the memory layouts a
GPU texture may use. -/
inductive TextureFormat
  | R8Unorm
  | R8Snorm
  | R8Uint
  | R8Sint
  | R16Unorm
  | R16Snorm
  | R16Uint
  | R16Sint
  | R16Float
  | Rg8Unorm
  | Rg8Snorm
  | Rg8Uint
  | Rg8Sint
  | R32Uint
  | R32Sint
  | R32Float
  | Rg16Unorm
  | Rg16Snorm
  | Rg16Uint
  | Rg16Sint
  | Rg16Float
  | Rgba8Unorm
  | Rgba8UnormSrgb
  | Rgba8Snorm
  | Rgba8Uint
  | Rgba8Sint
  | Bgra8Unorm
  | Bgra8UnormSrgb
  | Rgb10a2Unorm
  | Rg11b10Float
  | Rg32Uint
  | Rg32Sint
  | Rg32Float
  | Rgba16Unorm
  | Rgba16Snorm
  | Rgba16Uint
  | Rgba16Sint
  | Rgba16Float
  | Rgba32Uint
  | Rgba32Sint
  | Rgba32Float
  | Depth32Float
  | Depth24Plus
  | Depth24PlusStencil8
  deriving DecidableEq, Repr, Fintype

/-- The method `image::ColorType::bits_per_pixel` (image crate v0.23): the number of
bits spanned by one pixel of this color type. -/
def ColorType.bits_per_pixel : ColorType → Nat
  | .L8 => 8
  | .La8 => 16
  | .Rgb8 => 24
  | .Rgba8 => 32
  | .Bgr8 => 24
  | .Bgra8 => 32
  | .L16 => 16
  | .La16 => 32
  | .Rgb16 => 48
  | .Rgba16 => 64

/-- The function `format_from_image_color_type` (`image.rs` lines 323-335): the wgpu
texture format directly compatible with the given image color type, `none`
when there is no such format. -/
def format_from_image_color_type : ColorType → Option TextureFormat
  | .L8 => some .R8Unorm
  | .La8 => some .Rg8Unorm
  | .Rgba8 => some .Rgba8UnormSrgb
  | .L16 => some .R16Unorm
  | .La16 => some .Rg16Unorm
  | .Rgba16 => some .Rgba16Unorm
  | .Bgra8 => some .Bgra8UnormSrgb
  | _ => none

/-- The function `image_color_type_from_format` (`image.rs` lines 342-355): the image
color type directly compatible with the given wgpu texture format, `none`
when there is no such color type. -/
def image_color_type_from_format : TextureFormat → Option ColorType
  | .R8Unorm => some .L8
  | .Rg8Unorm => some .La8
  | .Rgba8UnormSrgb => some .Rgba8
  | .R16Unorm => some .L16
  | .Rg16Unorm => some .La16
  | .Rgba16Unorm => some .Rgba16
  | .Bgra8UnormSrgb => some .Bgra8
  | _ => none

/-- The thirteen pixel types for which `image.rs` (lines 265-315) implements
the `Pixel` trait, one constructor per `impl Pixel for image::...` block. -/
inductive PixelType
  | BgraU8
  | LumaU8
  | LumaI8
  | LumaU16
  | LumaI16
  | LumaAU8
  | LumaAI8
  | LumaAU16
  | LumaAI16
  | RgbaU8
  | RgbaI8
  | RgbaU16
  | RgbaI16
  deriving DecidableEq, Repr, Fintype

/-- The constant `P::TEXTURE_FORMAT`: the associated constant of each `Pixel` impl in
`image.rs` lines 265-315. -/
def PixelType.TEXTURE_FORMAT : PixelType → TextureFormat
  | .BgraU8 => .Bgra8UnormSrgb
  | .LumaU8 => .R8Unorm
  | .LumaI8 => .R8Snorm
  | .LumaU16 => .R16Unorm
  | .LumaI16 => .R16Snorm
  | .LumaAU8 => .Rg8Unorm
  | .LumaAI8 => .Rg8Snorm
  | .LumaAU16 => .Rg16Unorm
  | .LumaAI16 => .Rg16Snorm
  | .RgbaU8 => .Rgba8UnormSrgb
  | .RgbaI8 => .Rgba8Snorm
  | .RgbaU16 => .Rgba16Unorm
  | .RgbaI16 => .Rgba16Snorm

/-- The constant `P::COLOR_TYPE` of of `image::Pixel` (image crate
v0.23): the macro `define_colors!` picks the 8-bit color type when the
subpixel type occupies one byte (`u8`, `i8`) and the 16-bit color type
otherwise (`u16`, `i16`); for `Bgra` both choices are `Bgra8`. -/
def PixelType.COLOR_TYPE : PixelType → ColorType
  | .BgraU8 => .Bgra8
  | .LumaU8 => .L8
  | .LumaI8 => .L8
  | .LumaU16 => .L16
  | .LumaI16 => .L16
  | .LumaAU8 => .La8
  | .LumaAI8 => .La8
  | .LumaAU16 => .La16
  | .LumaAI16 => .La16
  | .RgbaU8 => .Rgba8
  | .RgbaI8 => .Rgba8
  | .RgbaU16 => .Rgba16
  | .RgbaI16 => .Rgba16

/-- The constant `P::CHANNEL_COUNT` of of `image::Pixel` (image
crate v0.23): the number of subpixel channels of the pixel type. -/
def PixelType.CHANNEL_COUNT : PixelType → Nat
  | .BgraU8 => 4
  | .LumaU8 => 1
  | .LumaI8 => 1
  | .LumaU16 => 1
  | .LumaI16 => 1
  | .LumaAU8 => 2
  | .LumaAI8 => 2
  | .LumaAU16 => 2
  | .LumaAI16 => 2
  | .RgbaU8 => 4
  | .RgbaI8 => 4
  | .RgbaU16 => 4
  | .RgbaI16 => 4

/-- Whether the subpixel type of the `Pixel` impl is a signed integer type
(`i8` or `i16`), read off the thirteen impl headers in `image.rs`. -/
def PixelType.signed : PixelType → Bool
  | .LumaI8 | .LumaI16 | .LumaAI8 | .LumaAI16 | .RgbaI8 | .RgbaI16 => true
  | _ => false

/-- A `wgpu::BufferBytes`: a GPU buffer holding a known sequence of bytes.
The claims only depend on the bytes it carries. -/
structure BufferBytes where
  data : List Nat
  deriving DecidableEq, Repr

/-- A `wgpu::BufferAsyncMapping` of a byte slice: the GPU buffer contents
exposed to host-side code once the asynchronous mapping completes. -/
structure BufferAsyncMapping where
  data : List Nat
  deriving DecidableEq, Repr

/-- The struct `BufferImage` (`image.rs` lines 20-25): a wgpu buffer containing an
image of a known size and `image::ColorType`. -/
structure BufferImage where
  color_type : ColorType
  size : Nat × Nat
  buffer : BufferBytes
  deriving DecidableEq, Repr

/-- The struct `ImageAsyncMapping` (`image.rs` lines 31-35): a mapped slice of bytes
together with the color type and size recorded for the image. -/
structure ImageAsyncMapping where
  color_type : ColorType
  size : Nat × Nat
  mapping : BufferAsyncMapping
  deriving DecidableEq, Repr

/-- A `wgpu::Texture` as the readback path sees it: its format, its size,
and the texel bytes it holds. -/
structure Texture where
  format : TextureFormat
  size : Nat × Nat
  data : List Nat
  deriving DecidableEq, Repr

/-- Modelled from the spec: `Texture::to_buffer_bytes` lives in the nannou
wgpu module, which is not under `src/`; per the spec it encodes a
texture-to-buffer readback copy, so the returned buffer carries the
texture's bytes. -/
def Texture.to_buffer_bytes (t : Texture) : BufferBytes :=
  { data := t.data }

/-- The method `Texture::to_image` (`image.rs` lines 154-167): look up the color type
of the texture's format (propagating `None` via `?`), then wrap the
readback buffer together with the texture's size and that color type. -/
def Texture.to_image (t : Texture) : Option BufferImage :=
  match image_color_type_from_format t.format with
  | none => none
  | some color_type =>
    some { color_type := color_type, size := t.size, buffer := t.to_buffer_bytes }

/-- The method `BufferImage::read` (`image.rs` lines 186-200): the underlying
`wgpu::BufferBytes::read` delivers a `Result` to the closure, which maps
the success value into an `ImageAsyncMapping` carrying the `BufferImage`'s
own color type and size, leaves the error branch untouched, and hands the
result to the user callback.  The underlying result is passed explicitly. -/
def BufferImage.read {β : Type} (img : BufferImage)
    (result : Except Unit BufferAsyncMapping)
    (callback : Except Unit ImageAsyncMapping → β) : β :=
  callback (result.map fun mapping =>
    { color_type := img.color_type, size := img.size, mapping := mapping })

/-- The method `ImageAsyncMapping::save` (`image.rs` lines 222-225): delegate to
`image::save_buffer` with the mapped bytes, the recorded width, height and
color type; the external call is passed in as a function. -/
def ImageAsyncMapping.save {ε : Type}
    (save_buffer : String → List Nat → Nat → Nat → ColorType → Except ε Unit)
    (m : ImageAsyncMapping) (path : String) : Except ε Unit :=
  save_buffer path m.mapping.data m.size.1 m.size.2 m.color_type

/-- An `image::ImageFormat` argument; the claims only pass it through, so
it is left abstract as a tag. -/
structure ImageFormat where
  tag : Nat
  deriving DecidableEq, Repr

/-- The method `ImageAsyncMapping::save_with_format` (lines 228-242):
delegate to `image::save_buffer_with_format` with the mapped bytes, the
recorded width, height, color type and the given format. -/
def ImageAsyncMapping.save_with_format {ε : Type}
    (save_buffer_with_format :
      String → List Nat → Nat → Nat → ColorType → ImageFormat → Except ε Unit)
    (m : ImageAsyncMapping) (path : String) (fmt : ImageFormat) : Except ε Unit :=
  save_buffer_with_format path m.mapping.data m.size.1 m.size.2 m.color_type fmt

/-- Host-visible events of one asynchronous buffer read: device polls while
the GPU-to-host transfer is in flight, the transfer completing (with the
bytes it made available), and the user callback being invoked (with the
bytes it is shown). -/
inductive ReadEvent
  | polled
  | transferCompleted (data : List Nat)
  | callbackInvoked (data : List Nat)
  deriving DecidableEq, Repr

/-- Modelled from the spec: the implementation of `wgpu::BufferBytes::read`
lives in the nannou wgpu module, which is not under `src/`.  Per the spec,
buffer mapping is "an asynchronous operation exposing GPU-resident byte
data to host-side code once a transfer completes": the device is polled
some number of times, then the transfer completes, and only then is the
callback invoked with the mapped buffer contents. -/
def BufferBytes.readEvents (b : BufferBytes) (pollsBeforeComplete : Nat) :
    List ReadEvent :=
  List.replicate pollsBeforeComplete .polled ++
    [.transferCompleted b.data, .callbackInvoked b.data]

/-- An `image::ImageBuffer`: a CPU-side image of known dimensions over a
container of subpixel data. -/
structure ImageBuffer where
  width : Nat
  height : Nat
  data : List Nat
  deriving DecidableEq, Repr

/-- The descriptor of the texture produced by `wgpu::TextureBuilder`: its
size, format, array layer count and usage bits. -/
structure TextureDesc where
  size : Nat × Nat
  format : TextureFormat
  array_layer_count : Nat
  usage : Nat
  deriving DecidableEq, Repr

/-- One `copy_buffer_to_texture` command recorded into the encoder: the
target array layer and the subpixel data of the staging buffer. -/
structure BufferToTextureCopy where
  array_layer : Nat
  data : List Nat
  deriving DecidableEq, Repr

/-- The `wgpu::TextureUsage::COPY_DST` bit (wgpu v0.4). -/
def TextureUsage_COPY_DST : Nat := 2

/-- The function `builder_from_image_view` (`image.rs` lines 361-371): a texture builder
with the image's dimensions as size and the pixel type's
`TEXTURE_FORMAT` as format; other fields keep the builder defaults. -/
def builder_from_image_view (pt : PixelType) (img : ImageBuffer) : TextureDesc :=
  { size := (img.width, img.height), format := pt.TEXTURE_FORMAT,
    array_layer_count := 1, usage := 0 }

/-- The function `encode_load_texture_array_from_image_buffers` (lines
475-514): take the iterator's length as the layer count (cast to `u32`),
pop the first buffer (returning `none` when there is none), build the
texture from the first buffer's view with that layer count and
`COPY_DST | usage`, then record one buffer-to-texture copy per buffer,
layer indices in iteration order.  Returns the texture descriptor and the
recorded copy commands. -/
def encode_load_texture_array_from_image_buffers (pt : PixelType) (usage : Nat)
    (buffers : List ImageBuffer) :
    Option (TextureDesc × List BufferToTextureCopy) :=
  let array_layers := buffers.length % 2 ^ 32
  match buffers with
  | [] => none
  | first :: rest =>
    let texture : TextureDesc :=
      { builder_from_image_view pt first with
        array_layer_count := array_layers,
        usage := TextureUsage_COPY_DST ||| usage }
    let copies := (first :: rest).enum.map fun p =>
      { array_layer := p.1 % 2 ^ 32, data := p.2.data : BufferToTextureCopy }
    some (texture, copies)

/-- The function `load_texture_array_from_image_buffers` (lines 443-461):
create an encoder, run the encode function, submit the encoder's commands
to the queue and return the texture.  The result pairs the returned
texture with the commands submitted to the queue. -/
def load_texture_array_from_image_buffers (pt : PixelType) (usage : Nat)
    (buffers : List ImageBuffer) :
    Option TextureDesc × List BufferToTextureCopy :=
  match encode_load_texture_array_from_image_buffers pt usage buffers with
  | none => (none, [])
  | some (t, cmds) => (some t, cmds)

/-- The observable outcome of `ImageAsyncMapping::as_image_buffer`: the
`None` return on a color-type mismatch, a successful `Some` with the
dimensions of the produced image buffer, or the panic raised by the final
`expect` when `ImageBuffer::from_raw` fails. -/
inductive CastOutcome
  | returnedNone
  | panicked
  | returnedSome (width height : Nat)
  deriving DecidableEq, Repr

/-- The method `ImageAsyncMapping::as_image_buffer` (lines 247-262): return
`None` when `P::COLOR_TYPE` differs from the stored color type; otherwise
form a subpixel slice of length `width * height` (a `u32` product cast to
`usize`) over the mapped bytes and hand it to `image::ImageBuffer::from_raw`
(image crate v0.23), which succeeds iff
`CHANNEL_COUNT * width * height` does not overflow `usize` and is at most
the slice length; on failure the `expect` panics. -/
def ImageAsyncMapping.as_image_buffer (pt : PixelType)
    (m : ImageAsyncMapping) : CastOutcome :=
  if pt.COLOR_TYPE ≠ m.color_type then .returnedNone
  else
    let width := m.size.1
    let height := m.size.2
    let len_pixels := width * height % 2 ^ 32
    let cw := pt.CHANNEL_COUNT * width
    if cw < 2 ^ 64 ∧ cw * height < 2 ^ 64 ∧ cw * height ≤ len_pixels then
      .returnedSome width height
    else .panicked

/-- Three is not a power of two. -/
theorem three_not_pow2 : ¬ ∃ k, (3 : Nat) = 2 ^ k := by
  rintro ⟨k, hk⟩
  cases k with
  | zero => simp at hk
  | succ n =>
    rw [pow_succ] at hk
    omega

/-- Six is not a power of two. -/
theorem six_not_pow2 : ¬ ∃ k, (6 : Nat) = 2 ^ k := by
  rintro ⟨k, hk⟩
  cases k with
  | zero => simp at hk
  | succ n =>
    rw [pow_succ] at hk
    have hn : (2 : Nat) ^ n = 3 := by omega
    exact three_not_pow2 ⟨n, hn.symm⟩

/-- C1: the color-type/texture-format mapping is bidirectional on its
domain: whenever `format_from_image_color_type c = some f` we get
`image_color_type_from_format f = some c`, and conversely whenever
`image_color_type_from_format f = some c` we get
`format_from_image_color_type c = some f`. -/
theorem format_color_type_roundtrip :
    (∀ c f, format_from_image_color_type c = some f →
      image_color_type_from_format f = some c) ∧
    (∀ f c, image_color_type_from_format f = some c →
      format_from_image_color_type c = some f) := by
  decide

/-- Witness for C1 at the concrete pair `L8` / `R8Unorm`. -/
theorem format_color_type_roundtrip_witness :
    image_color_type_from_format TextureFormat.R8Unorm = some ColorType.L8 ∧
    format_from_image_color_type ColorType.L8 = some TextureFormat.R8Unorm :=
  ⟨format_color_type_roundtrip.1 ColorType.L8 TextureFormat.R8Unorm (by decide),
   format_color_type_roundtrip.2 TextureFormat.R8Unorm ColorType.L8 (by decide)⟩

/-- C3: `format_from_image_color_type` returns `some` exactly for those
color types whose byte size per texel (`bits_per_pixel / 8`) is a power of
two. -/
theorem format_some_iff_pow2_bytes :
    ∀ c, (format_from_image_color_type c).isSome = true ↔
      ∃ k, ColorType.bits_per_pixel c / 8 = 2 ^ k := by
  intro c
  cases c with
  | L8 => exact ⟨fun _ => ⟨0, rfl⟩, fun _ => rfl⟩
  | La8 => exact ⟨fun _ => ⟨1, rfl⟩, fun _ => rfl⟩
  | Rgb8 => exact iff_of_false (by decide) three_not_pow2
  | Rgba8 => exact ⟨fun _ => ⟨2, rfl⟩, fun _ => rfl⟩
  | Bgr8 => exact iff_of_false (by decide) three_not_pow2
  | Bgra8 => exact ⟨fun _ => ⟨2, rfl⟩, fun _ => rfl⟩
  | L16 => exact ⟨fun _ => ⟨1, rfl⟩, fun _ => rfl⟩
  | La16 => exact ⟨fun _ => ⟨2, rfl⟩, fun _ => rfl⟩
  | Rgb16 => exact iff_of_false (by decide) six_not_pow2
  | Rgba16 => exact ⟨fun _ => ⟨3, rfl⟩, fun _ => rfl⟩

/-- C6: both directions of the mapping table are total functions returning
`some` or `none` for every input, and each direction is partial: `Rgb8` has
no texture format and the Snorm format `R8Snorm` has no color type. -/
theorem mapping_total_and_partial :
    (∀ c, (format_from_image_color_type c).isSome = true ∨
      (format_from_image_color_type c).isNone = true) ∧
    (∀ f, (image_color_type_from_format f).isSome = true ∨
      (image_color_type_from_format f).isNone = true) ∧
    format_from_image_color_type ColorType.Rgb8 = none ∧
    image_color_type_from_format TextureFormat.R8Snorm = none := by
  decide

/-- Counterexample to C2 as stated: for `P = image::Luma<i8>` (a `Pixel`
impl, `image.rs` lines 273-275) the trait constants disagree with the
conversion functions: `format_from_image_color_type(L8) = R8Unorm`, not
`R8Snorm`, and `image_color_type_from_format(R8Snorm) = None`. -/
theorem pixel_trait_table_counterexample :
    ¬ (format_from_image_color_type PixelType.LumaI8.COLOR_TYPE =
        some PixelType.LumaI8.TEXTURE_FORMAT ∧
      image_color_type_from_format PixelType.LumaI8.TEXTURE_FORMAT =
        some PixelType.LumaI8.COLOR_TYPE) := by
  decide

/-- C2 (amended): for every pixel type `P` implementing the `Pixel` trait
whose subpixel type is unsigned, the trait constants and the conversion
functions embody the same mapping:
`format_from_image_color_type(P::COLOR_TYPE) = Some(P::TEXTURE_FORMAT)` and
`image_color_type_from_format(P::TEXTURE_FORMAT) = Some(P::COLOR_TYPE)`. -/
theorem pixel_trait_matches_table :
    ∀ P : PixelType, P.signed = false →
      format_from_image_color_type P.COLOR_TYPE = some P.TEXTURE_FORMAT ∧
      image_color_type_from_format P.TEXTURE_FORMAT = some P.COLOR_TYPE := by
  decide

/-- Witness for C2 (amended) at the concrete pixel type `image::Luma<u8>`. -/
theorem pixel_trait_matches_table_witness :
    format_from_image_color_type PixelType.LumaU8.COLOR_TYPE =
      some PixelType.LumaU8.TEXTURE_FORMAT ∧
    image_color_type_from_format PixelType.LumaU8.TEXTURE_FORMAT =
      some PixelType.LumaU8.COLOR_TYPE :=
  pixel_trait_matches_table PixelType.LumaU8 rfl

/-- C4: errors of the underlying libraries are surfaced unchanged: `save`
and `save_with_format` return exactly the underlying call's result, and
`BufferImage::read` hands an error result to the callback unmodified while
re-wrapping only the success value as an `ImageAsyncMapping`. -/
theorem errors_surfaced_unchanged :
    (∀ (ε : Type) (sb : String → List Nat → Nat → Nat → ColorType → Except ε Unit)
      (m : ImageAsyncMapping) (path : String),
      ImageAsyncMapping.save sb m path =
        sb path m.mapping.data m.size.1 m.size.2 m.color_type) ∧
    (∀ (ε : Type)
      (sbf : String → List Nat → Nat → Nat → ColorType → ImageFormat → Except ε Unit)
      (m : ImageAsyncMapping) (path : String) (fmt : ImageFormat),
      ImageAsyncMapping.save_with_format sbf m path fmt =
        sbf path m.mapping.data m.size.1 m.size.2 m.color_type fmt) ∧
    (∀ (img : BufferImage) (e : Unit),
      BufferImage.read img (Except.error e) id = Except.error e) ∧
    (∀ (img : BufferImage) (mp : BufferAsyncMapping),
      BufferImage.read img (Except.ok mp) id =
        Except.ok { color_type := img.color_type, size := img.size, mapping := mp }) :=
  ⟨fun _ _ _ _ => rfl, fun _ _ _ _ _ => rfl, fun _ _ => rfl, fun _ _ => rfl⟩

/-- C5: `Texture::to_image` returns `none` exactly when
`image_color_type_from_format` returns `none` on the texture's format, and
otherwise produces a `BufferImage` whose color type is the looked-up one
and whose size is the texture's size. -/
theorem to_image_correct (t : Texture) :
    (t.to_image = none ↔ image_color_type_from_format t.format = none) ∧
    ∀ bi, t.to_image = some bi →
      image_color_type_from_format t.format = some bi.color_type ∧
      bi.size = t.size := by
  unfold Texture.to_image
  cases h : image_color_type_from_format t.format with
  | none => simp
  | some ct =>
    refine ⟨by simp, ?_⟩
    intro bi hbi
    simp only [Option.some.injEq] at hbi
    subst hbi
    exact ⟨rfl, rfl⟩

/-- Witness for C5 at a concrete texture with format `Rg8Unorm`. -/
theorem to_image_correct_witness :
    image_color_type_from_format TextureFormat.Rg8Unorm = some ColorType.La8 ∧
    (2, 3) = ((2 : Nat), (3 : Nat)) :=
  (to_image_correct { format := .Rg8Unorm, size := (2, 3), data := [0, 0, 0, 0] }).2
    { color_type := .La8, size := (2, 3),
      buffer := { data := [0, 0, 0, 0] } } rfl

/-- C10: the color type and size recorded in a `BufferImage` are preserved
unchanged through the readback pipeline: whenever `BufferImage::read`
delivers a successful `ImageAsyncMapping` to the callback, its color type
and size equal the `BufferImage`'s own. -/
theorem read_preserves_color_type_and_size
    (img : BufferImage) (result : Except Unit BufferAsyncMapping)
    (m : ImageAsyncMapping) (h : BufferImage.read img result id = Except.ok m) :
    m.color_type = img.color_type ∧ m.size = img.size := by
  cases result with
  | error e => simp [BufferImage.read, Except.map] at h
  | ok mp =>
    simp only [BufferImage.read, Except.map, id_eq, Except.ok.injEq] at h
    subst h
    exact ⟨rfl, rfl⟩

/-- Witness for C10 at a concrete `BufferImage` and successful read. -/
theorem read_preserves_color_type_and_size_witness :
    ImageAsyncMapping.color_type
        { color_type := ColorType.Rgba8, size := (1, 1),
          mapping := { data := [9, 9, 9, 9] } } = ColorType.Rgba8 ∧
    ImageAsyncMapping.size
        { color_type := ColorType.Rgba8, size := (1, 1),
          mapping := { data := [9, 9, 9, 9] } } = (1, 1) :=
  read_preserves_color_type_and_size
    { color_type := .Rgba8, size := (1, 1), buffer := { data := [9, 9, 9, 9] } }
    (Except.ok { data := [9, 9, 9, 9] })
    { color_type := .Rgba8, size := (1, 1), mapping := { data := [9, 9, 9, 9] } }
    rfl

/-- Unfolding one poll step of `readEvents`. -/
theorem readEvents_succ (b : BufferBytes) (n : Nat) :
    b.readEvents (n + 1) = ReadEvent.polled :: b.readEvents n := by
  simp [BufferBytes.readEvents, List.replicate_succ]

/-- C7: the callback of `BufferImage::read` is never invoked before the
asynchronous transfer and mapping have completed: in every read trace, a
`callbackInvoked` event is strictly preceded by a `transferCompleted`
event, and the data shown to the callback is the mapped buffer contents. -/
theorem callback_only_after_transfer (b : BufferBytes) (n i : Nat)
    (d : List Nat)
    (h : (b.readEvents n)[i]? = some (ReadEvent.callbackInvoked d)) :
    d = b.data ∧ ∃ j, j < i ∧
      (b.readEvents n)[j]? = some (ReadEvent.transferCompleted b.data) := by
  induction n generalizing i with
  | zero =>
    match i with
    | 0 => simp [BufferBytes.readEvents] at h
    | 1 =>
      simp only [BufferBytes.readEvents, List.replicate, List.nil_append,
        List.getElem?_cons_succ, List.getElem?_cons_zero,
        Option.some.injEq, ReadEvent.callbackInvoked.injEq] at h
      exact ⟨h.symm, 0, Nat.zero_lt_one, by simp [BufferBytes.readEvents]⟩
    | k + 2 => simp [BufferBytes.readEvents] at h
  | succ n ih =>
    match i with
    | 0 => simp [readEvents_succ] at h
    | i + 1 =>
      rw [readEvents_succ, List.getElem?_cons_succ] at h
      obtain ⟨hd, j, hj, hget⟩ := ih i h
      exact ⟨hd, j + 1, by omega, by rw [readEvents_succ, List.getElem?_cons_succ]; exact hget⟩

/-- Witness for C7 on a concrete buffer with two polls before completion. -/
theorem callback_only_after_transfer_witness :
    [7, 8] = [7, 8] ∧ ∃ j, j < 3 ∧
      (BufferBytes.readEvents { data := [7, 8] } 2)[j]? =
        some (ReadEvent.transferCompleted [7, 8]) :=
  callback_only_after_transfer { data := [7, 8] } 2 3 [7, 8] (by rfl)

/-- C8: the texture-array loaders return `none` iff the buffer sequence is
empty; for a non-empty sequence the texture takes its size and format from
the first buffer, its array layer count is the number of buffers, and the
i-th buffer is copied to array layer i, with the load variant submitting
exactly the encoded commands. -/
theorem load_texture_array_correct (pt : PixelType) (usage : Nat)
    (buffers : List ImageBuffer) (hlen : buffers.length < 2 ^ 32) :
    (encode_load_texture_array_from_image_buffers pt usage buffers = none ↔
      buffers = []) ∧
    ((load_texture_array_from_image_buffers pt usage buffers).1 = none ↔
      buffers = []) ∧
    ∀ t cmds,
      encode_load_texture_array_from_image_buffers pt usage buffers =
        some (t, cmds) →
      load_texture_array_from_image_buffers pt usage buffers = (some t, cmds) ∧
      (∃ first, buffers.head? = some first ∧
        t.size = (first.width, first.height)) ∧
      t.format = pt.TEXTURE_FORMAT ∧
      t.array_layer_count = buffers.length ∧
      cmds.length = buffers.length ∧
      ∀ (i : Nat) (b : ImageBuffer), buffers[i]? = some b →
        cmds[i]? = some ({ array_layer := i, data := b.data } : BufferToTextureCopy) := by
  cases buffers with
  | nil =>
    refine ⟨by simp [encode_load_texture_array_from_image_buffers],
      by simp [load_texture_array_from_image_buffers,
        encode_load_texture_array_from_image_buffers], ?_⟩
    intro t cmds h
    simp [encode_load_texture_array_from_image_buffers] at h
  | cons first rest =>
    refine ⟨by simp [encode_load_texture_array_from_image_buffers],
      by simp [load_texture_array_from_image_buffers,
        encode_load_texture_array_from_image_buffers], ?_⟩
    intro t cmds h
    simp only [encode_load_texture_array_from_image_buffers,
      Option.some.injEq, Prod.mk.injEq] at h
    obtain ⟨ht, hcmds⟩ := h
    subst ht
    subst hcmds
    refine ⟨rfl, ⟨first, rfl, rfl⟩, rfl, Nat.mod_eq_of_lt hlen, by simp, ?_⟩
    intro i b hib
    have hi : i < (first :: rest).length := by
      rcases List.getElem?_eq_some.mp hib with ⟨hlt, _⟩
      exact hlt
    have him : i % 2 ^ 32 = i := Nat.mod_eq_of_lt (lt_trans hi hlen)
    simp only [List.getElem?_map, List.getElem?_enum, hib, Option.map_some', him]

/-- Witness for C8 on two concrete one-row image buffers. -/
theorem load_texture_array_correct_witness :
    load_texture_array_from_image_buffers PixelType.LumaU8 4
        [{ width := 2, height := 1, data := [10, 20] },
         { width := 2, height := 1, data := [30, 40] }] =
      (some { size := (2, 1), format := TextureFormat.R8Unorm,
              array_layer_count := 2, usage := 6 },
       [{ array_layer := 0, data := [10, 20] },
        { array_layer := 1, data := [30, 40] }]) ∧
    [({ array_layer := 0, data := [10, 20] } : BufferToTextureCopy),
     { array_layer := 1, data := [30, 40] }][1]? =
      some { array_layer := 1, data := [30, 40] } := by
  have h := (load_texture_array_correct PixelType.LumaU8 4
    [{ width := 2, height := 1, data := [10, 20] },
     { width := 2, height := 1, data := [30, 40] }] (by norm_num)).2.2
    { size := (2, 1), format := TextureFormat.R8Unorm,
      array_layer_count := 2, usage := 6 }
    [{ array_layer := 0, data := [10, 20] },
     { array_layer := 1, data := [30, 40] }]
    (by decide)
  exact ⟨h.1, h.2.2.2.2.2 1 { width := 2, height := 1, data := [30, 40] } (by decide)⟩

/-- C9: the code contradicts its own documentation: on a 1x1 `Rgba8`
mapping with four bytes of data and the matching pixel type
`image::Rgba<u8>`, `as_image_buffer` panics in its `expect` (the slice it
forms holds `width * height` subpixels where `ImageBuffer::from_raw`
requires `width * height * CHANNEL_COUNT`), instead of returning the
promised image buffer; on a mismatching pixel type it does return `None`. -/
theorem as_image_buffer_panics_on_matching_rgba8 :
    ImageAsyncMapping.as_image_buffer PixelType.RgbaU8
        { color_type := ColorType.Rgba8, size := (1, 1),
          mapping := { data := [1, 2, 3, 4] } } = CastOutcome.panicked ∧
    ImageAsyncMapping.as_image_buffer PixelType.LumaU8
        { color_type := ColorType.Rgba8, size := (1, 1),
          mapping := { data := [1, 2, 3, 4] } } = CastOutcome.returnedNone := by
  decide
